import Mathlib

/-!
Verification development for the AVM Bogotá block-valuation pipeline
(`avm.py`, `avm_migra.py`, `prueba.py`).

The pipeline filters the city's cadastral blocks ("manzanas") to the selected
district ("localidad"), enriches them with a land-use category, and computes
comparative statistics (mean value over the same land-use area, mean value over
a 300 m buffer), a land-use distribution over a 500 m buffer, a five-period
value projection, and a security lookup.

Embedding conventions:
* pandas nullable numeric cells are `Option ℚ` (`none` models `NaN`);
* a pandas boolean-mask filter `df[mask]` is `List.filter`;
* `Series.mean()` (skipna) is `meanValorM2`: `none` when every value is null,
  otherwise the sum of the non-null values divided by their number;
* planar geometries of the metric CRS (EPSG:3116) are point sets of the
  Euclidean plane; shapely's `buffer(r)` is the closed `r`-neighbourhood and
  shapely's `intersects` is nonempty set intersection (both operations are
  closed: boundary contact counts).  The reprojection to EPSG:4326 before the
  intersection test is a homeomorphism applied to both arguments, so it is
  modelled as the identity;
* the shapely intersection mask computed by `geopandas` appears in theorems as
  a Boolean column `mask` together with the hypothesis that it decides the
  geometric predicate.
-/

namespace AVM

/-! ## Geometry model (metric CRS plane) -/

/-- Points of the planar metric CRS (EPSG:3116), used by every buffer
computation in the source (`to_crs(epsg=3116).buffer(...)`). -/
abbrev Pt := EuclideanSpace ℝ (Fin 2)

/-- Shapely `geometry.buffer(r)`: the closed set of all points at distance at
most `r` from the geometry.  Shapely buffers are closed polygons, hence the
non-strict inequality. -/
def buffer (s : Set Pt) (r : ℝ) : Set Pt := {p | Metric.infDist p s ≤ r}

/-- Shapely `a.intersects(b)`: the two geometries share at least one point
(interior or boundary; DE-9IM "intersects" is closed). -/
def intersects (A B : Set Pt) : Prop := (A ∩ B).Nonempty

theorem mem_buffer {s : Set Pt} {r : ℝ} {p : Pt} :
    p ∈ buffer s r ↔ Metric.infDist p s ≤ r := Iff.rfl

theorem self_subset_buffer {s : Set Pt} {r : ℝ} (hr : 0 ≤ r) : s ⊆ buffer s r := by
  intro p hp
  simpa [buffer, Metric.infDist_zero_of_mem hp] using hr

theorem intersects_self_buffer {s : Set Pt} {r : ℝ} (hs : s.Nonempty) (hr : 0 ≤ r) :
    intersects s (buffer s r) := by
  obtain ⟨q, hq⟩ := hs
  exact ⟨q, hq, self_subset_buffer hr hq⟩

theorem buffer_mono {s : Set Pt} {r r' : ℝ} (h : r ≤ r') : buffer s r ⊆ buffer s r' :=
  fun _ hp => le_trans hp h

/-! ## Data model

Attribute schemas of the reference tables (`tabla_hechos`, `dim_area`,
`dim_localidad`, `dim_transporte`), restricted to the columns the claims read.
The merely presentational columns (`estrato`, `rentabilidad`,
`colegio_cerca`, `estaciones_cerca`, `area_pot`, …) are dropped: no claim
mentions them.  Geometry columns are handled separately (see the geometry
model above), keeping the record types decidable. -/

/-- Row of the block fact table `tabla_hechos`. -/
structure Manzana where
  id_manzana_unif : String
  num_localidad : Int
  id_area : Option Int
  valor_m2 : Option ℚ
  valor_2025_s1 : Option ℚ
  valor_2025_s2 : Option ℚ
  valor_2026_s1 : Option ℚ
  valor_2026_s2 : Option ℚ
  id_combi_acceso : Option Int
deriving DecidableEq

/-- Row of the land-use table `dim_area`.  `id_area` is the primary key
(unique per the data model). -/
structure Area where
  id_area : Int
  num_localidad : Int
  uso_pot_simplificado : Option String
deriving DecidableEq

/-- Row of the district table `dim_localidad`. -/
structure Localidad where
  num_localidad : Int
  nombre_localidad : String
  cantidad_delitos : Int
  nivel_riesgo_delictivo : String
deriving DecidableEq

/-- Block row after the step-3 left merge with `dim_area`: the raw columns
plus the filled land-use category column. -/
structure ManzanaE extends Manzana where
  uso_pot_simplificado : String
deriving DecidableEq

/-! ## Spatial Filter Engine: district filter and land-use enrichment

`avm.py` lines 110–127 / `prueba.py` lines 116–133: filter the blocks by the
selected district code, left-merge the district's areas on `id_area` to pull
`uso_pot_simplificado`, and fill the missing category with the sentinel
`"Sin clasificación"`. -/

/-- Left-merge lookup of a block's land-use category.  `id_area` is unique in
`dim_area`, so the pandas merge attaches the first (only) matching row; a null
foreign key matches nothing, and a missing match or a null category are both
filled by the subsequent `fillna("Sin clasificación")`. -/
def mergeUso (areas_sel : List Area) (b : Manzana) : ManzanaE :=
  { toManzana := b
    uso_pot_simplificado :=
      ((b.id_area.bind fun i =>
          ((areas_sel.filter fun a => a.id_area == i).head?.bind
            fun a => a.uso_pot_simplificado))).getD "Sin clasificación" }

/-- `manzanas_localidad_sel`: blocks of the selected district, enriched with
the land-use category of the district's areas. -/
def manzanas_localidad_sel (manzanas : List Manzana) (areas : List Area)
    (cod_localidad : Int) : List ManzanaE :=
  ((manzanas.filter fun b => b.num_localidad == cod_localidad).map
    (mergeUso (areas.filter fun a => a.num_localidad == cod_localidad)))

/-! ## Comparative Valuation Engine -/

/-- `Series.mean()` of the `valor_m2` column with pandas' default `skipna`:
null cells are dropped from numerator and denominator; the mean of an all-null
(or empty) selection is `NaN`, modelled as `none`. -/
def meanValorM2 (bs : List ManzanaE) : Option ℚ :=
  let vals := bs.filterMap fun b => b.valor_m2
  if vals.isEmpty then none
  else some (vals.sum / (vals.length : ℚ))

/-- Peer set of `avm.py` lines 339–342: blocks of the same `id_area`, with the
explicit null branch (`isna` matches `isna`). -/
def manzanas_area_avm (subset : List ManzanaE) (sel : ManzanaE) : List ManzanaE :=
  match sel.id_area with
  | some a => subset.filter fun b => b.id_area == some a
  | none => subset.filter fun b => b.id_area.isNone

/-- `promedio_area` of `avm.py` line 344: mean of the peer set, `0` when the
peer set is empty. -/
def promedio_area_avm (subset : List ManzanaE) (sel : ManzanaE) : Option ℚ :=
  if (manzanas_area_avm subset sel).isEmpty then some 0
  else meanValorM2 (manzanas_area_avm subset sel)

/-- Pandas scalar equality against a nullable cell: `NaN == x` and
`x == NaN` are `False`, so a null key on either side never matches. -/
def pandasEq (x y : Option Int) : Bool :=
  match x, y with
  | some a, some b => a == b
  | _, _ => false

/-- Peer set of `avm_migra.py` line 346 / `prueba.py` line 319: plain
`id_area == id_area_manzana` with no null branch, so a null area id matches
no row. -/
def manzanas_area_migra (subset : List ManzanaE) (sel : ManzanaE) : List ManzanaE :=
  subset.filter fun b => pandasEq b.id_area sel.id_area

/-- `promedio_area` of `avm_migra.py` line 347 / `prueba.py` line 320. -/
def promedio_area_migra (subset : List ManzanaE) (sel : ManzanaE) : Option ℚ :=
  if (manzanas_area_migra subset sel).isEmpty then some 0
  else meanValorM2 (manzanas_area_migra subset sel)

/-- Buffer filter of `avm.py` line 348 (and the 500 m variant at line 364):
the district subset restricted by the geopandas intersection mask. -/
def manzanas_buffer (subset : List ManzanaE) (mask : ManzanaE → Bool) : List ManzanaE :=
  subset.filter mask

/-- `promedio_buffer` of `avm.py` line 349: mean of the buffer-filtered
subset, `0` when it is empty. -/
def promedio_buffer (subset : List ManzanaE) (mask : ManzanaE → Bool) : Option ℚ :=
  if (manzanas_buffer subset mask).isEmpty then some 0
  else meanValorM2 (manzanas_buffer subset mask)

/-! ## Land-Use Distribution Aggregator

`Series.value_counts()` groups the category column, counts each distinct
value, and sorts descending by count.  The grouping hash table enumerates the
distinct values in first-appearance order and the final order of tied counts
follows that enumeration, so `value_counts` is modelled as: distinct values in
first-occurrence order, paired with their counts, stably sorted by descending
count.  The column contains no nulls (the step-3 `fillna` made the category
total), matching `value_counts`' default `dropna` vacuously. -/

/-- Distinct values of a column in order of first appearance. -/
def firstOccs : List String → List String
  | [] => []
  | x :: xs => x :: (firstOccs xs).filter (fun y => y != x)

/-- Insertion step of the stable descending sort on counts: `p` goes in front
of the first entry whose count is not larger. -/
def insertCount (p : String × Nat) : List (String × Nat) → List (String × Nat)
  | [] => [p]
  | q :: qs => if q.2 ≤ p.2 then p :: q :: qs else q :: insertCount p qs

/-- Stable sort by descending count. -/
def sortCounts : List (String × Nat) → List (String × Nat)
  | [] => []
  | p :: ps => insertCount p (sortCounts ps)

/-- `Series.value_counts()` on a null-free column. -/
def value_counts (xs : List String) : List (String × Nat) :=
  sortCounts ((firstOccs xs).map fun c => (c, xs.count c))

/-- `conteo_uso` of `avm.py` lines 369–370: category counts of the
500 m-buffer-filtered subset. -/
def conteo_uso (subset : List ManzanaE) (mask : ManzanaE → Bool) : List (String × Nat) :=
  value_counts ((manzanas_buffer subset mask).map fun b => b.uso_pot_simplificado)

/-- `uso_pot_mayoritario` of `avm.py` lines 396–400: head of the count table,
or the unclassified sentinel when the table is empty. -/
def uso_pot_mayoritario (conteo : List (String × Nat)) : String :=
  match conteo.head? with
  | some p => p.1
  | none => "Sin clasificación POT"

/-! ## Valuation Projection Series Builder

`avm.py` lines 387–438 / `avm_migra.py` lines 395–418 / `prueba.py` lines
354–364: extract the five projection columns in fixed order, and draw the
series against the fixed labels only when no cell is null (otherwise the
section is suppressed with a warning). -/

/-- The five projection cells of the selected block, in the source's column
order `["valor_m2", "valor_2025_s1", "valor_2025_s2", "valor_2026_s1",
"valor_2026_s2"]`. -/
def proyeccion_fields (m : Manzana) : List (Option ℚ) :=
  [m.valor_m2, m.valor_2025_s1, m.valor_2025_s2, m.valor_2026_s1, m.valor_2026_s2]

/-- The fixed period labels (`fechas`). -/
def fechas : List String := ["2024-S2", "2025-S1", "2025-S2", "2026-S1", "2026-S2"]

/-- `serie_proyeccion` paired with its labels: `none` (section suppressed)
when any of the five cells is null, otherwise the five `(label, value)`
points of the chart. -/
def serie_proyeccion (m : Manzana) : Option (List (String × ℚ)) :=
  if (proyeccion_fields m).any (fun v => v.isNone) then none
  else some (fechas.zip ((proyeccion_fields m).filterMap id))

/-! ## Security Context Resolver: district-name lookup -/

/-- `nombre_loc_series`: the `nombre_localidad` column of the district rows
matching the code (`localidades[localidades["num_localidad"] == cod]`). -/
def nombre_loc_series (localidades : List Localidad) (cod : Int) : List String :=
  (localidades.filter fun l => l.num_localidad == cod).map fun l => l.nombre_localidad

/-- District-name resolution of `avm.py` lines 471–479: when the code is
absent the step warns, substitutes the placeholder `"Desconocido"`, and
continues. -/
def nombre_loc_actual_avm (localidades : List Localidad) (cod : Int) : String :=
  match (nombre_loc_series localidades cod).head? with
  | some n => n
  | none => "Desconocido"

/-- District-name resolution of `prueba.py` lines 392–397: when the code is
absent the step shows an error and halts (`st.stop()`), modelled as
`Except.error` carrying the source's message. -/
def nombre_loc_actual_prueba (localidades : List Localidad) (cod : Int) :
    Except String String :=
  match (nombre_loc_series localidades cod).head? with
  | some n => Except.ok n
  | none => Except.error ("No se encontró la localidad con código " ++ toString cod)

/-! ## Proximity Context Resolver: transit point groups -/

/-- Geometry of a `dim_transporte` row: shapely `Point` or `MultiPoint`
(plane coordinates, exact representation irrelevant to the claims). -/
inductive TGeom where
  | point (p : ℚ × ℚ)
  | multipoint (ps : List (ℚ × ℚ))
deriving DecidableEq

/-- Row of the transit table `dim_transporte`. -/
structure Transporte where
  id_combi_acceso : Int
  geometry : TGeom
deriving DecidableEq

/-- Transit point resolution of `avm.py` lines 234–245: a null group id or a
group id matching no row yields no points; a `MultiPoint` geometry is expanded
through its `.geoms` (guarded by `hasattr`), and a plain `Point` is kept as a
one-element set. -/
def puntos_transporte_avm (transporte : List Transporte) (id_combi : Option Int) :
    List (ℚ × ℚ) :=
  match id_combi with
  | none => []
  | some i =>
    match ((transporte.filter fun t => t.id_combi_acceso == i).map
        fun t => t.geometry).head? with
    | none => []
    | some (TGeom.multipoint ps) => ps
    | some (TGeom.point p) => [p]

/-- Transit point resolution of `avm_migra.py` lines 254–263: same null and
no-match handling, but the geometry's `.geoms` is read unconditionally, so a
plain `Point` raises `AttributeError` (shapely points have no `geoms`),
modelled as `Except.error`. -/
def puntos_transporte_migra (transporte : List Transporte) (id_combi : Option Int) :
    Except String (List (ℚ × ℚ)) :=
  match id_combi with
  | none => Except.ok []
  | some i =>
    match ((transporte.filter fun t => t.id_combi_acceso == i).map
        fun t => t.geometry).head? with
    | none => Except.ok []
    | some (TGeom.multipoint ps) => Except.ok ps
    | some (TGeom.point _) => Except.error "AttributeError: Point object has no attribute geoms"

/-! ## Shared helper lemmas on the mean -/

theorem meanValorM2_of_all_none (bs : List ManzanaE)
    (h : ∀ b ∈ bs, b.valor_m2 = none) : meanValorM2 bs = none := by
  have hnil : (bs.filterMap fun b => b.valor_m2) = [] :=
    List.filterMap_eq_nil_iff.mpr h
  simp [meanValorM2, hnil]

theorem meanValorM2_of_exists_some (bs : List ManzanaE)
    (h : ∃ b ∈ bs, (b.valor_m2).isSome = true) :
    meanValorM2 bs =
      some ((bs.filterMap fun b => b.valor_m2).sum /
        ((bs.filterMap fun b => b.valor_m2).length : ℚ)) := by
  obtain ⟨b, hb, hsome⟩ := h
  obtain ⟨v, hv⟩ := Option.isSome_iff_exists.mp hsome
  have hne : (bs.filterMap fun b => b.valor_m2) ≠ [] := by
    intro hnil
    have := List.filterMap_eq_nil_iff.mp hnil b hb
    rw [this] at hv
    cases hv
  simp [meanValorM2, List.isEmpty_iff, hne]

theorem promedio_of_exists_some (bs : List ManzanaE)
    (h : ∃ b ∈ bs, (b.valor_m2).isSome = true) :
    (if bs.isEmpty then some 0 else meanValorM2 bs) =
      some ((bs.filterMap fun b => b.valor_m2).sum /
        ((bs.filterMap fun b => b.valor_m2).length : ℚ)) := by
  have hne : bs ≠ [] := by
    obtain ⟨b, hb, _⟩ := h
    exact List.ne_nil_of_mem hb
  have h1 : bs.isEmpty = false := by simp [List.isEmpty_iff, hne]
  rw [h1]
  simpa using meanValorM2_of_exists_some bs h

theorem promedio_of_all_none (bs : List ManzanaE) (hne : bs ≠ [])
    (h : ∀ b ∈ bs, b.valor_m2 = none) :
    (if bs.isEmpty then some 0 else meanValorM2 bs) = none := by
  have h1 : bs.isEmpty = false := by simp [List.isEmpty_iff, hne]
  rw [h1]
  simpa using meanValorM2_of_all_none bs h

/-- Sample enriched block row, used to instantiate hypothesis-bearing
theorems at concrete inputs. -/
def mzSample (area : Option Int) (v : Option ℚ) : ManzanaE where
  id_manzana_unif := "M1"
  num_localidad := 1
  id_area := area
  valor_m2 := v
  valor_2025_s1 := some 110
  valor_2025_s2 := some 120
  valor_2026_s1 := some 130
  valor_2026_s2 := some 140
  id_combi_acceso := none
  uso_pot_simplificado := "Residencial"

/-! ## Claim C1: areaPeerValue -/

/-- Claim C1 (amended to the `avm.py` engine): the peer set of
`promedio_area` is exactly the set of blocks whose (nullable) area id equals
the selected block's — in particular a null area id matches exactly the other
null-area blocks; the value is `0` when the peer set is empty, and is the
arithmetic mean of the non-null values of the peer set whenever some peer has
a non-null value. -/
theorem promedio_area_avm_spec (subset : List ManzanaE) (sel : ManzanaE) :
    manzanas_area_avm subset sel = subset.filter (fun b => b.id_area == sel.id_area)
    ∧ (manzanas_area_avm subset sel = [] → promedio_area_avm subset sel = some 0)
    ∧ ((∃ b ∈ manzanas_area_avm subset sel, (b.valor_m2).isSome = true) →
        promedio_area_avm subset sel =
          some (((manzanas_area_avm subset sel).filterMap fun b => b.valor_m2).sum /
            (((manzanas_area_avm subset sel).filterMap fun b => b.valor_m2).length : ℚ))) := by
  refine ⟨?_, ?_, ?_⟩
  · cases h : sel.id_area with
    | none =>
      simp only [manzanas_area_avm, h]
      exact List.filter_congr fun b _ => by cases b.id_area <;> rfl
    | some a =>
      simp only [manzanas_area_avm, h]
  · intro h
    simp [promedio_area_avm, h]
  · intro hex
    exact promedio_of_exists_some _ hex

/-- Witness for C1's amended theorem: the mean of the two same-area sample
rows evaluates to 150. -/
theorem promedio_area_avm_spec_witness :
    promedio_area_avm [mzSample (some 1) (some 100), mzSample (some 1) (some 200)]
      (mzSample (some 1) (some 100)) = some 150 := by
  have h := (promedio_area_avm_spec
      [mzSample (some 1) (some 100), mzSample (some 1) (some 200)]
      (mzSample (some 1) (some 100))).2.2
      ⟨mzSample (some 1) (some 100), by simp [manzanas_area_avm, mzSample], by simp [mzSample]⟩
  rw [h]
  norm_num [manzanas_area_avm, mzSample, List.filterMap_cons]

/-- Counterexample for C1 as stated: in the `avm_migra.py` / `prueba.py`
variant of `promedio_area` a null area id matches no row (pandas `== NaN` is
`False`), so for a selected block with null area id the engine returns `0`
even though the null-matching peer set is nonempty and its mean is 100. -/
theorem promedio_area_migra_null_cex :
    promedio_area_migra [mzSample none (some 100)] (mzSample none (some 100)) = some 0
    ∧ meanValorM2 (List.filter (fun b => b.id_area == (mzSample none (some 100)).id_area)
        [mzSample none (some 100)]) = some 100
    ∧ (0 : ℚ) ≠ 100 := by
  refine ⟨?_, ?_, by norm_num⟩
  · simp [promedio_area_migra, manzanas_area_migra, pandasEq, mzSample]
  · norm_num [meanValorM2, mzSample, List.filterMap_cons]

/-! ## Claim C3: null handling of the means -/

/-- Counterexample for C3 as stated: a nonempty peer set in which every value
is null does not reduce to `0`; `Series.mean()` of an all-null column is
`NaN` (modelled `none`), which the engine returns unchanged. -/
theorem promedio_area_null_values_cex :
    promedio_area_avm [mzSample (some 1) none] (mzSample (some 1) none) = none
    ∧ ¬ promedio_area_avm [mzSample (some 1) none] (mzSample (some 1) none) = some 0 := by
  have h : promedio_area_avm [mzSample (some 1) none] (mzSample (some 1) none) = none := by
    simp [promedio_area_avm, manzanas_area_avm, meanValorM2, mzSample]
  exact ⟨h, by rw [h]; simp⟩

/-- Claim C3 (amended): both engine means are simple arithmetic means over
the non-null entries of the `valor_m2` column (null rows are excluded from
numerator and denominator); but a nonempty peer/neighbor subset in which
every value is null reduces to `NaN` (`none`), not to `0` — only the
empty-subset case yields `0` (covered by C1's and C2's theorems). -/
theorem mean_semantics_spec (subset : List ManzanaE) (sel : ManzanaE)
    (mask : ManzanaE → Bool) :
    ((∃ b ∈ manzanas_area_avm subset sel, (b.valor_m2).isSome = true) →
        promedio_area_avm subset sel =
          some (((manzanas_area_avm subset sel).filterMap fun b => b.valor_m2).sum /
            (((manzanas_area_avm subset sel).filterMap fun b => b.valor_m2).length : ℚ)))
    ∧ (manzanas_area_avm subset sel ≠ [] →
        (∀ b ∈ manzanas_area_avm subset sel, b.valor_m2 = none) →
        promedio_area_avm subset sel = none)
    ∧ ((∃ b ∈ manzanas_buffer subset mask, (b.valor_m2).isSome = true) →
        promedio_buffer subset mask =
          some (((manzanas_buffer subset mask).filterMap fun b => b.valor_m2).sum /
            (((manzanas_buffer subset mask).filterMap fun b => b.valor_m2).length : ℚ)))
    ∧ (manzanas_buffer subset mask ≠ [] →
        (∀ b ∈ manzanas_buffer subset mask, b.valor_m2 = none) →
        promedio_buffer subset mask = none) := by
  refine ⟨?_, ?_, ?_, ?_⟩
  · intro hex
    exact promedio_of_exists_some _ hex
  · intro hne hall
    exact promedio_of_all_none _ hne hall
  · intro hex
    exact promedio_of_exists_some _ hex
  · intro hne hall
    exact promedio_of_all_none _ hne hall

/-- Witness for C3's amended theorem: a mixed null/non-null neighborhood
averages only the non-null values, and an all-null nonempty neighborhood
yields `none`. -/
theorem mean_semantics_spec_witness :
    promedio_buffer [mzSample (some 2) (some 50), mzSample (some 2) none]
      (fun _ => true) = some 50
    ∧ promedio_buffer [mzSample (some 2) none] (fun _ => true) = none := by
  constructor
  · have h := (mean_semantics_spec
        [mzSample (some 2) (some 50), mzSample (some 2) none]
        (mzSample (some 2) (some 50)) (fun _ => true)).2.2.1
        ⟨mzSample (some 2) (some 50), by simp [manzanas_buffer, mzSample], by simp [mzSample]⟩
    rw [h]
    norm_num [manzanas_buffer, mzSample, List.filterMap_cons]
  · exact (mean_semantics_spec [mzSample (some 2) none] (mzSample (some 2) none)
      (fun _ => true)).2.2.2 (by simp [manzanas_buffer]) (by simp [manzanas_buffer, mzSample])

/-! ## Claim C4: projection series -/

/-- Claim C4: the projection series builder is all-or-nothing — if any of the
five projection cells is null the series is suppressed (`none`); if none is
null it yields exactly the five `(label, value)` pairs in fixed order with the
fixed labels; and a produced series always has exactly five points. -/
theorem serie_proyeccion_all_or_nothing (m : Manzana) :
    ((∃ v ∈ proyeccion_fields m, v = none) → serie_proyeccion m = none)
    ∧ (∀ v0 v1 v2 v3 v4 : ℚ,
        m.valor_m2 = some v0 → m.valor_2025_s1 = some v1 → m.valor_2025_s2 = some v2 →
        m.valor_2026_s1 = some v3 → m.valor_2026_s2 = some v4 →
        serie_proyeccion m = some [("2024-S2", v0), ("2025-S1", v1), ("2025-S2", v2),
          ("2026-S1", v3), ("2026-S2", v4)])
    ∧ (∀ l, serie_proyeccion m = some l → l.length = 5) := by
  refine ⟨?_, ?_, ?_⟩
  · rintro ⟨v, hv, rfl⟩
    have hany : (proyeccion_fields m).any (fun v => v.isNone) = true :=
      List.any_eq_true.mpr ⟨none, hv, rfl⟩
    simp [serie_proyeccion, hany]
  · intro v0 v1 v2 v3 v4 h0 h1 h2 h3 h4
    simp [serie_proyeccion, proyeccion_fields, fechas, h0, h1, h2, h3, h4,
      List.filterMap_cons]
  · intro l hl
    simp only [serie_proyeccion] at hl
    split at hl
    · cases hl
    · rename_i hany
      rcases h0 : m.valor_m2 with _ | v0
      · simp [proyeccion_fields, h0] at hany
      rcases h1 : m.valor_2025_s1 with _ | v1
      · simp [proyeccion_fields, h1] at hany
      rcases h2 : m.valor_2025_s2 with _ | v2
      · simp [proyeccion_fields, h2] at hany
      rcases h3 : m.valor_2026_s1 with _ | v3
      · simp [proyeccion_fields, h3] at hany
      rcases h4 : m.valor_2026_s2 with _ | v4
      · simp [proyeccion_fields, h4] at hany
      injection hl with hl
      rw [← hl]
      simp [proyeccion_fields, fechas, h0, h1, h2, h3, h4, List.filterMap_cons]

/-- Witness for C4: the sample row's complete projection evaluates to the
five labelled points. -/
theorem serie_proyeccion_all_or_nothing_witness :
    serie_proyeccion (mzSample (some 1) (some 100)).toManzana =
      some [("2024-S2", 100), ("2025-S1", 110), ("2025-S2", 120), ("2026-S1", 130),
        ("2026-S2", 140)] :=
  (serie_proyeccion_all_or_nothing _).2.1 100 110 120 130 140 rfl rfl rfl rfl rfl

/-! ## Claim C6: district-name resolution -/

/-- Counterexample for C6 as stated: the `avm.py` step-6 resolver does not
halt on a missing district code — it substitutes the placeholder
`"Desconocido"` (after a warning) and the step continues. -/
theorem nombre_loc_avm_placeholder_cex :
    nombre_loc_actual_avm [⟨1, "Usaquén", 100, "Bajo"⟩] 99 = "Desconocido" := rfl

/-- Claim C6 (amended to the `prueba.py` resolver): when the district code is
absent from the district table the resolver halts with the
district-not-found error, and any name it does return comes from a district
row with the selected code — it never invents a placeholder. -/
theorem nombre_loc_prueba_spec (localidades : List Localidad) (cod : Int) :
    ((∀ l ∈ localidades, l.num_localidad ≠ cod) →
      nombre_loc_actual_prueba localidades cod =
        Except.error ("No se encontró la localidad con código " ++ toString cod))
    ∧ (∀ n, nombre_loc_actual_prueba localidades cod = Except.ok n →
        ∃ l ∈ localidades, l.num_localidad = cod ∧ l.nombre_localidad = n) := by
  constructor
  · intro hall
    have hfil : localidades.filter (fun l => l.num_localidad == cod) = [] := by
      rw [List.filter_eq_nil_iff]
      intro l hl
      simp only [ne_eq, beq_iff_eq]
      exact hall l hl
    simp [nombre_loc_actual_prueba, nombre_loc_series, hfil]
  · intro n hn
    unfold nombre_loc_actual_prueba at hn
    rcases hh : (nombre_loc_series localidades cod).head? with _ | m
    · rw [hh] at hn; cases hn
    · rw [hh] at hn
      injection hn with hn
      have hmem : m ∈ nombre_loc_series localidades cod :=
        List.mem_of_mem_head? (by simp [hh])
      unfold nombre_loc_series at hmem
      obtain ⟨l, hl, hname⟩ := List.mem_map.mp hmem
      obtain ⟨hmem', hbeq⟩ := List.mem_filter.mp hl
      exact ⟨l, hmem', beq_iff_eq.mp hbeq, by rw [hname, hn]⟩

/-- Witness for C6's amended theorem: district code 99 is absent from a
one-row table, so the resolver errors. -/
theorem nombre_loc_prueba_spec_witness :
    nombre_loc_actual_prueba [⟨1, "Usaquén", 100, "Bajo"⟩] 99 =
      Except.error ("No se encontró la localidad con código " ++ toString (99 : Int)) :=
  (nombre_loc_prueba_spec [⟨1, "Usaquén", 100, "Bajo"⟩] 99).1
    (by intro l hl; rw [List.mem_singleton] at hl; rw [hl]; decide)

/-! ## Claim C7: transit point resolution -/

/-- Claim C7, code-bug evidence: on a transit group whose geometry is a plain
`Point`, the `avm_migra.py` resolver raises `AttributeError` (it reads
`.geoms` unconditionally) where the guarded `avm.py` resolver returns the
one-element point set; a null group id yields the empty set without error in
both. -/
theorem puntos_transporte_migra_point_raises :
    puntos_transporte_migra [⟨7, TGeom.point (0, 0)⟩] (some 7) =
      Except.error "AttributeError: Point object has no attribute geoms"
    ∧ puntos_transporte_avm [⟨7, TGeom.point (0, 0)⟩] (some 7) = [(0, 0)]
    ∧ puntos_transporte_migra [⟨7, TGeom.point (0, 0)⟩] none = Except.ok [] :=
  ⟨rfl, rfl, rfl⟩

/-! ## Helper lemmas for `value_counts` -/

theorem mem_insertCount {x p : String × Nat} {l : List (String × Nat)} :
    x ∈ insertCount p l ↔ x = p ∨ x ∈ l := by
  induction l with
  | nil => simp [insertCount]
  | cons q qs ih =>
    by_cases h : q.2 ≤ p.2
    · simp only [insertCount, if_pos h, List.mem_cons]
    · simp only [insertCount, if_neg h, List.mem_cons, ih]
      tauto

theorem insertCount_perm (p : String × Nat) (l : List (String × Nat)) :
    (insertCount p l).Perm (p :: l) := by
  induction l with
  | nil => rfl
  | cons q qs ih =>
    by_cases h : q.2 ≤ p.2
    · simp only [insertCount, if_pos h]
      exact List.Perm.refl _
    · simp only [insertCount, if_neg h]
      exact (ih.cons q).trans (List.Perm.swap p q qs)

theorem sortCounts_perm (l : List (String × Nat)) : (sortCounts l).Perm l := by
  induction l with
  | nil => rfl
  | cons p ps ih =>
    simp only [sortCounts]
    exact (insertCount_perm p (sortCounts ps)).trans (ih.cons p)

theorem pairwise_insertCount (p : String × Nat) (l : List (String × Nat))
    (h : l.Pairwise fun a b => b.2 ≤ a.2) :
    (insertCount p l).Pairwise fun a b => b.2 ≤ a.2 := by
  induction l with
  | nil => simp [insertCount]
  | cons q qs ih =>
    rcases List.pairwise_cons.mp h with ⟨hq, hqs⟩
    by_cases hle : q.2 ≤ p.2
    · simp only [insertCount, if_pos hle]
      rw [List.pairwise_cons]
      refine ⟨?_, h⟩
      intro b hb
      rcases List.mem_cons.mp hb with rfl | hb'
      · exact hle
      · exact le_trans (hq b hb') hle
    · simp only [insertCount, if_neg hle]
      rw [List.pairwise_cons]
      refine ⟨?_, ih hqs⟩
      intro b hb
      rcases mem_insertCount.mp hb with rfl | hb'
      · exact le_of_not_le hle
      · exact hq b hb'

theorem pairwise_sortCounts (l : List (String × Nat)) :
    (sortCounts l).Pairwise fun a b => b.2 ≤ a.2 := by
  induction l with
  | nil => simp [sortCounts]
  | cons p ps ih =>
    simp only [sortCounts]
    exact pairwise_insertCount p _ ih

theorem mem_firstOccs {a : String} {xs : List String} :
    a ∈ firstOccs xs ↔ a ∈ xs := by
  induction xs with
  | nil => simp [firstOccs]
  | cons x xs ih =>
    simp only [firstOccs, List.mem_cons]
    by_cases hax : a = x
    · simp [hax]
    · simp [hax, List.mem_filter, ih, bne_iff_ne]

theorem nodup_firstOccs (xs : List String) : (firstOccs xs).Nodup := by
  induction xs with
  | nil => simp [firstOccs]
  | cons x xs ih =>
    simp only [firstOccs]
    rw [List.nodup_cons]
    refine ⟨?_, ih.filter _⟩
    intro hmem
    have hne := (List.mem_filter.mp hmem).2
    simp at hne

theorem firstOccs_perm_dedup (xs : List String) : (firstOccs xs).Perm xs.dedup := by
  rw [List.perm_iff_count]
  intro a
  rw [List.count_eq_of_nodup (nodup_firstOccs xs), List.count_dedup]
  simp [mem_firstOccs]

theorem value_counts_snd_sum (xs : List String) :
    ((value_counts xs).map Prod.snd).sum = xs.length := by
  have h1 := ((sortCounts_perm ((firstOccs xs).map fun c => (c, xs.count c))).map
    Prod.snd).sum_eq
  rw [value_counts, h1, List.map_map]
  have h2 : ((firstOccs xs).map (Prod.snd ∘ fun c => (c, xs.count c))).sum =
      ((firstOccs xs).map fun c => xs.count c).sum := rfl
  rw [h2, ((firstOccs_perm_dedup xs).map fun c => xs.count c).sum_eq]
  exact List.sum_map_count_dedup_eq_length xs

theorem value_counts_ne_nil {xs : List String} (h : xs ≠ []) : value_counts xs ≠ [] := by
  have hlen : (value_counts xs).length =
      ((firstOccs xs).map fun c => (c, xs.count c)).length :=
    (sortCounts_perm _).length_eq
  intro hnil
  rw [hnil] at hlen
  cases xs with
  | nil => exact h rfl
  | cons x xs => simp [firstOccs] at hlen

/-! ## Claim C5: land-use distribution -/

/-- Claim C5: the per-category counts of `conteo_uso` sum exactly to the size
of the buffer-filtered subset; for a nonempty subset the table is nonempty,
and `uso_pot_mayoritario` is its head, whose count is maximal (the model's
descending sort is stable, so ties are resolved deterministically by first
appearance); an empty subset yields the unclassified sentinel. -/
theorem conteo_uso_spec (subset : List ManzanaE) (mask : ManzanaE → Bool) :
    ((conteo_uso subset mask).map Prod.snd).sum = (manzanas_buffer subset mask).length
    ∧ (manzanas_buffer subset mask ≠ [] →
        ∃ top rest, conteo_uso subset mask = top :: rest
          ∧ uso_pot_mayoritario (conteo_uso subset mask) = top.1
          ∧ ∀ p ∈ conteo_uso subset mask, p.2 ≤ top.2)
    ∧ (manzanas_buffer subset mask = [] →
        uso_pot_mayoritario (conteo_uso subset mask) = "Sin clasificación POT") := by
  refine ⟨?_, ?_, ?_⟩
  · rw [conteo_uso, value_counts_snd_sum, List.length_map]
  · intro hne
    have husos : (manzanas_buffer subset mask).map (fun b => b.uso_pot_simplificado) ≠ [] := by
      simp only [ne_eq, List.map_eq_nil_iff]
      exact hne
    have hvc : conteo_uso subset mask ≠ [] := value_counts_ne_nil husos
    have hpw : (conteo_uso subset mask).Pairwise fun a b => b.2 ≤ a.2 :=
      pairwise_sortCounts _
    rcases hcu : conteo_uso subset mask with _ | ⟨top, rest⟩
    · exact absurd hcu hvc
    · rw [hcu] at hpw
      rcases List.pairwise_cons.mp hpw with ⟨htop, _⟩
      refine ⟨top, rest, rfl, by simp [uso_pot_mayoritario, hcu], ?_⟩
      intro p hp
      rcases List.mem_cons.mp hp with rfl | hp'
      · exact le_refl _
      · exact htop p hp'
  · intro hempty
    have hnil : conteo_uso subset mask = [] := by
      rw [conteo_uso, hempty]
      rfl
    simp [uso_pot_mayoritario, hnil]

/-- Sample enriched row with a chosen land-use category. -/
def mzSampleUso (uso : String) : ManzanaE :=
  { mzSample (some 1) (some 100) with uso_pot_simplificado := uso }

/-- Witness for C5: two residential blocks and one commercial block inside
the buffer produce a nonempty table headed by a maximal count. -/
theorem conteo_uso_spec_witness :
    ∃ top rest,
      conteo_uso [mzSampleUso "Residencial", mzSampleUso "Residencial",
        mzSampleUso "Comercial"] (fun _ => true) = top :: rest
      ∧ uso_pot_mayoritario (conteo_uso [mzSampleUso "Residencial",
          mzSampleUso "Residencial", mzSampleUso "Comercial"] (fun _ => true)) = top.1
      ∧ ∀ p ∈ conteo_uso [mzSampleUso "Residencial", mzSampleUso "Residencial",
          mzSampleUso "Comercial"] (fun _ => true), p.2 ≤ top.2 :=
  (conteo_uso_spec [mzSampleUso "Residencial", mzSampleUso "Residencial",
    mzSampleUso "Comercial"] (fun _ => true)).2.1 (by simp [manzanas_buffer])

/-! ## Claim C2: neighborValue over the 300 m buffer -/

/-- Claim C2: under the hypothesis that the geopandas mask column decides
shapely's intersection test against the 300 m buffer, the buffer-filtered
subset contains exactly the blocks of the district subset whose geometry
intersects the buffer; a geometry touching the buffer boundary (distance to
the selected geometry exactly 300) is included; an empty intersecting set
yields `0`, and otherwise `promedio_buffer` is the mean of the filtered
subset's values. -/
theorem promedio_buffer_geometric (subset : List ManzanaE) (G : ManzanaE → Set Pt)
    (g : Set Pt) (mask : ManzanaE → Bool)
    (hmask : ∀ b ∈ subset, mask b = true ↔ intersects (G b) (buffer g 300)) :
    (∀ b, b ∈ manzanas_buffer subset mask ↔ b ∈ subset ∧ intersects (G b) (buffer g 300))
    ∧ (∀ b ∈ subset, (∃ p ∈ G b, Metric.infDist p g = 300) →
        b ∈ manzanas_buffer subset mask)
    ∧ (manzanas_buffer subset mask = [] → promedio_buffer subset mask = some 0)
    ∧ (manzanas_buffer subset mask ≠ [] →
        promedio_buffer subset mask = meanValorM2 (manzanas_buffer subset mask)) := by
  refine ⟨?_, ?_, ?_, ?_⟩
  · intro b
    rw [manzanas_buffer, List.mem_filter]
    constructor
    · rintro ⟨hb, hm⟩
      exact ⟨hb, (hmask b hb).mp hm⟩
    · rintro ⟨hb, hint⟩
      exact ⟨hb, (hmask b hb).mpr hint⟩
  · rintro b hb ⟨p, hpG, hpd⟩
    rw [manzanas_buffer, List.mem_filter]
    exact ⟨hb, (hmask b hb).mpr ⟨p, hpG, le_of_eq hpd⟩⟩
  · intro h
    simp [promedio_buffer, h]
  · intro h
    have h1 : (manzanas_buffer subset mask).isEmpty = false := by
      simp [List.isEmpty_iff, h]
    simp [promedio_buffer, h1]

/-- Witness for C2: a singleton geometry trivially intersects its own 300 m
buffer, so the block is kept and the mean is taken over the one-block
subset. -/
theorem promedio_buffer_geometric_witness :
    mzSample (some 1) (some 100) ∈
      manzanas_buffer [mzSample (some 1) (some 100)] (fun _ => true)
    ∧ promedio_buffer [mzSample (some 1) (some 100)] (fun _ => true) =
        meanValorM2 (manzanas_buffer [mzSample (some 1) (some 100)] (fun _ => true)) := by
  have hint : intersects ({0} : Set Pt) (buffer ({0} : Set Pt) 300) :=
    intersects_self_buffer ⟨0, rfl⟩ (by norm_num)
  have h := promedio_buffer_geometric [mzSample (some 1) (some 100)]
    (fun _ => ({0} : Set Pt)) ({0} : Set Pt) (fun _ => true)
    (fun b _ => iff_of_true rfl hint)
  exact ⟨(h.1 _).mpr ⟨by simp, hint⟩, h.2.2.2 (by simp [manzanas_buffer])⟩

/-! ## Claim C9: the selected block lies in its own buffers -/

/-- Claim C9: a selected block with nonempty geometry belongs to its own
300 m neighbor subset and its own 500 m distribution subset; when its value
is non-null, `promedio_buffer` is a mean over a nonempty value list
containing that value; and the distribution table is nonempty. -/
theorem manzana_in_own_buffers (subset : List ManzanaE) (sel : ManzanaE)
    (G : ManzanaE → Set Pt) (mask3 mask5 : ManzanaE → Bool)
    (hsel : sel ∈ subset) (hg : (G sel).Nonempty)
    (h3 : ∀ b ∈ subset, mask3 b = true ↔ intersects (G b) (buffer (G sel) 300))
    (h5 : ∀ b ∈ subset, mask5 b = true ↔ intersects (G b) (buffer (G sel) 500)) :
    sel ∈ manzanas_buffer subset mask3
    ∧ sel ∈ manzanas_buffer subset mask5
    ∧ (∀ v : ℚ, sel.valor_m2 = some v →
        v ∈ (manzanas_buffer subset mask3).filterMap (fun b => b.valor_m2)
        ∧ promedio_buffer subset mask3 =
          some (((manzanas_buffer subset mask3).filterMap fun b => b.valor_m2).sum /
            (((manzanas_buffer subset mask3).filterMap fun b => b.valor_m2).length : ℚ)))
    ∧ conteo_uso subset mask5 ≠ [] := by
  have hm3 : sel ∈ manzanas_buffer subset mask3 := by
    rw [manzanas_buffer, List.mem_filter]
    exact ⟨hsel, (h3 sel hsel).mpr (intersects_self_buffer hg (by norm_num))⟩
  have hm5 : sel ∈ manzanas_buffer subset mask5 := by
    rw [manzanas_buffer, List.mem_filter]
    exact ⟨hsel, (h5 sel hsel).mpr (intersects_self_buffer hg (by norm_num))⟩
  refine ⟨hm3, hm5, ?_, ?_⟩
  · intro v hv
    refine ⟨List.mem_filterMap.mpr ⟨sel, hm3, hv⟩, ?_⟩
    exact promedio_of_exists_some _ ⟨sel, hm3, by rw [hv]; rfl⟩
  · have husos : (manzanas_buffer subset mask5).map (fun b => b.uso_pot_simplificado) ≠ [] := by
      simp only [ne_eq, List.map_eq_nil_iff]
      exact List.ne_nil_of_mem hm5
    exact value_counts_ne_nil husos

/-- Witness for C9: a one-block district subset with a singleton geometry. -/
theorem manzana_in_own_buffers_witness :
    mzSample (some 1) (some 100) ∈
      manzanas_buffer [mzSample (some 1) (some 100)] (fun _ => true)
    ∧ conteo_uso [mzSample (some 1) (some 100)] (fun _ => true) ≠ [] := by
  have h := manzana_in_own_buffers [mzSample (some 1) (some 100)]
    (mzSample (some 1) (some 100)) (fun _ => ({0} : Set Pt)) (fun _ => true) (fun _ => true)
    (List.mem_singleton.mpr rfl) ⟨0, rfl⟩
    (fun b _ => iff_of_true rfl (intersects_self_buffer ⟨0, rfl⟩ (by norm_num)))
    (fun b _ => iff_of_true rfl (intersects_self_buffer ⟨0, rfl⟩ (by norm_num)))
  exact ⟨h.1, h.2.2.2⟩

/-! ## Claim C10: every buffered block carries the selected district code -/

/-- Claim C10: the buffer-filtered subsets are filtered from the
district-restricted enriched subset, so every block they contain carries the
selected district code — blocks of other districts are never counted. -/
theorem buffer_subset_same_localidad (manzanas : List Manzana) (areas : List Area)
    (cod : Int) (mask : ManzanaE → Bool) (b : ManzanaE)
    (hb : b ∈ manzanas_buffer (manzanas_localidad_sel manzanas areas cod) mask) :
    b.num_localidad = cod := by
  have hb1 : b ∈ manzanas_localidad_sel manzanas areas cod :=
    (List.mem_filter.mp hb).1
  rw [manzanas_localidad_sel] at hb1
  obtain ⟨raw, hraw, hbe⟩ := List.mem_map.mp hb1
  obtain ⟨_, hbeq⟩ := List.mem_filter.mp hraw
  have hnum : b.num_localidad = raw.num_localidad := by rw [← hbe]; rfl
  rw [hnum]
  exact beq_iff_eq.mp hbeq

/-- Witness for C10: a single block of district 1 survives the pipeline and
indeed carries code 1. -/
theorem buffer_subset_same_localidad_witness :
    (mergeUso [] (mzSample (some 1) (some 100)).toManzana).num_localidad = 1 :=
  buffer_subset_same_localidad [(mzSample (some 1) (some 100)).toManzana] [] 1
    (fun _ => true) (mergeUso [] (mzSample (some 1) (some 100)).toManzana)
    (by simp [manzanas_buffer, manzanas_localidad_sel, mergeUso, mzSample])

/-! ## Claim C8: buffering is strictly monotone in the radius -/

/-- Claim C8: for a non-degenerate block geometry (nonempty and bounded, as
every cadastral polygon is), the 500 m buffer strictly contains the 300 m
buffer around the same geometry.  Strictness: going far enough away from the
bounded geometry and back along a path, continuity of the distance function
yields a point at distance exactly 400, inside the 500 m buffer but outside
the 300 m one. -/
theorem buffer_strict_mono (s : Set Pt) (hne : s.Nonempty)
    (hb : Bornology.IsBounded s) : buffer s 300 ⊂ buffer s 500 := by
  obtain ⟨q, hq⟩ := hne
  obtain ⟨R, hR⟩ := hb.subset_closedBall q
  have hR0 : 0 ≤ R := by
    have := hR hq
    simpa [Metric.mem_closedBall] using this
  have hsne : s.Nonempty := ⟨q, hq⟩
  set u : Pt := EuclideanSpace.single (0 : Fin 2) (1 : ℝ) with hu
  set b : Pt := q + (R + 401) • u with hbdef
  have hub : ‖u‖ = 1 := by
    rw [hu, EuclideanSpace.norm_single]
    norm_num
  have hdistbq : dist b q = R + 401 := by
    rw [hbdef, dist_self_add_left, norm_smul, hub]
    rw [mul_one]
    exact abs_of_nonneg (by linarith)
  have hfar : ∀ y ∈ s, (401 : ℝ) ≤ dist b y := by
    intro y hy
    have h1 : dist y q ≤ R := by
      have := hR hy
      simpa [Metric.mem_closedBall] using this
    have h2 : dist b q ≤ dist b y + dist y q := dist_triangle b y q
    linarith
  have hfb : (401 : ℝ) ≤ Metric.infDist b s := by
    by_contra hlt
    push_neg at hlt
    obtain ⟨y, hy, hdy⟩ := (Metric.infDist_lt_iff hsne).mp hlt
    exact absurd hdy (not_lt.mpr (hfar y hy))
  have hcont : Continuous fun x : Pt => Metric.infDist x s :=
    Metric.continuous_infDist_pt s
  have h400 : (400 : ℝ) ∈ Set.Icc (Metric.infDist q s) (Metric.infDist b s) := by
    constructor
    · rw [Metric.infDist_zero_of_mem hq]
      norm_num
    · linarith
  obtain ⟨x, hx⟩ := intermediate_value_univ q b hcont h400
  have hx' : Metric.infDist x s = 400 := hx
  rw [Set.ssubset_iff_of_subset (buffer_mono (by norm_num))]
  refine ⟨x, ?_, ?_⟩
  · show Metric.infDist x s ≤ 500
    rw [hx']
    norm_num
  · show ¬ Metric.infDist x s ≤ 300
    rw [hx']
    norm_num

/-- Witness for C8: the singleton geometry at the origin is nonempty and
bounded, so its 300 m buffer is strictly inside its 500 m buffer. -/
theorem buffer_strict_mono_witness :
    (({0} : Set Pt)).Nonempty ∧ buffer ({0} : Set Pt) 300 ⊂ buffer ({0} : Set Pt) 500 :=
  ⟨⟨0, rfl⟩, buffer_strict_mono {0} ⟨0, rfl⟩ Bornology.isBounded_singleton⟩

end AVM
